import Mathlib

/-!
Shallow embedding of the kinder orchestration tool (Go) for specification
checking.  Each Lean definition translates one Go function or code block:

* `cleanContainerData`       — main/helpers: prune data dir except CA files
* `joinErrors`               — main/helpers: strings.Join(errs, ", ")
* `normalizeRegistryName`, `getUpstreamServer`, `MirrorPath`,
  `mirrorHostsToml`, `writtenMirrorFiles`
                             — docker/kind.go registry-mirror configurator
* `deriveNetworkConfig` and the IPv4 CIDR parser
                             — docker/network.go
* `CreateContainer` over an explicit daemon state — docker/client.go
* `CreateNetwork`, `NetworkExists`, the start-sequence network step
                             — docker/network.go and main.go startCmd
* `stopRun`, `startRun`, `restartRun` — main.go stop/start/restart commands
* `GenerateCAWithDomain`, `GenerateIntermediate` — cacert package
-/

namespace Kinder

/-- File names kept by `cleanContainerData` (main package constants). -/
def CACertFilename : String := "ca.crt"

/-- CA private key filename (main package constant). -/
def CAKeyFilename : String := "ca.key"

/-- A directory entry of the data directory: name and content. -/
structure Entry where
  name : String
  content : String
  deriving DecidableEq, Repr

/-- The data directory: `none` when the directory does not exist,
otherwise the list of its entries. -/
def DataDir := Option (List Entry)

/-- Translation of `cleanContainerData` (main package): when the data
directory does not exist it returns nil doing nothing; otherwise it removes
every entry whose name is neither `CACertFilename` nor `CAKeyFilename`. -/
def cleanContainerData (d : DataDir) : Except String DataDir :=
  match d with
  | none => Except.ok none
  | some entries =>
      Except.ok (some (entries.filter
        (fun e => e.name = CACertFilename || e.name = CAKeyFilename)))

/-- Translation of `joinErrors` (main package): `strings.Join(errs, ", ")`. -/
def joinErrors : List String → String
  | [] => ""
  | [e] => e
  | e :: rest => e ++ ", " ++ joinErrors rest

/-- Translation of `normalizeRegistryName` (docker/kind.go). -/
def normalizeRegistryName (registry : String) : String :=
  if registry = "registry-1.docker.io" then "docker.io" else registry

/-- Translation of `getUpstreamServer` (docker/kind.go). -/
def getUpstreamServer (registry : String) : String :=
  if registry = "docker.io" || registry = "registry-1.docker.io" then
    "https://registry-1.docker.io"
  else
    "https://" ++ registry

/-- Translation of `MirrorPath` (docker/zot.go): the Zot path prefix for an
upstream registry. -/
def MirrorPath (registry : String) : String :=
  "/" ++ registry

/-- Structured view of a generated `hosts.toml` descriptor: the upstream
server and the host sections (key and capability list). -/
structure HostsToml where
  server : String
  hosts : List (String × List String)
  deriving DecidableEq, Repr

/-- The descriptor built for one mirrored registry by the loop body of
`createCertsDirStructure` (docker/kind.go): upstream server from
`getUpstreamServer`, a single host section keyed by
`mirrorURL + MirrorPath(registry)` with capabilities pull and resolve. -/
def mirrorDescriptor (registry mirrorURL : String) : HostsToml :=
  { server := getUpstreamServer registry
  , hosts := [(mirrorURL ++ MirrorPath registry, ["pull", "resolve"])] }

/-- Renders one `[host."<key>"]` section with its capabilities line. -/
def renderHostSection (key : String) (caps : List String) : String :=
  "[host.\"" ++ key ++ "\"]\n  capabilities = [" ++
    joinErrors (caps.map (fun c => "\"" ++ c ++ "\"")) ++ "]\n"

/-- Renders a `HostsToml` descriptor in the format produced by
`createCertsDirStructure`'s `fmt.Sprintf` template. -/
def renderHostsToml (h : HostsToml) : String :=
  "server = \"" ++ h.server ++ "\"\n" ++
    String.join (h.hosts.map (fun p => "\n" ++ renderHostSection p.1 p.2))

/-- The `hosts.toml` content written for one mirrored registry, exactly the
`fmt.Sprintf` result in the mirror loop of `createCertsDirStructure`. -/
def mirrorHostsToml (registry mirrorURL : String) : String :=
  "server = \"" ++ getUpstreamServer registry ++ "\"\n\n[host.\"" ++
    (mirrorURL ++ MirrorPath registry) ++
    "\"]\n  capabilities = [\"pull\", \"resolve\"]\n"

/-- The files written by the mirror loop of `createCertsDirStructure` for a
list of `(registry, mirrorURL)` entries: per entry one
`<certsDir>/<normalized>/hosts.toml` descriptor and, when CA data was read,
a copy of the CA certificate alongside it. -/
def writtenMirrorFiles (certsDir caCertData : String)
    (mirrors : List (String × String)) : List (String × String) :=
  mirrors.flatMap (fun rm =>
    let registryDir := certsDir ++ "/" ++ normalizeRegistryName rm.1
    (registryDir ++ "/hosts.toml", mirrorHostsToml rm.1 rm.2) ::
      (if caCertData.length > 0 then [(registryDir ++ "/ca.crt", caCertData)]
       else []))

/-- Splits a character list at every occurrence of the separator. -/
def splitChar (sep : Char) : List Char → List (List Char)
  | [] => [[]]
  | c :: rest =>
      let r := splitChar sep rest
      if c = sep then [] :: r
      else
        match r with
        | [] => [[c]]
        | g :: gs => (c :: g) :: gs

/-- Accumulating decimal digit parser (Go `dtoi`): fails on the first
non-digit character. -/
def digitsValAux (acc : Nat) : List Char → Option Nat
  | [] => some acc
  | c :: rest =>
      if c.isDigit then digitsValAux (acc * 10 + (c.toNat - 48)) rest
      else none

/-- Parses a non-empty all-digit string to its decimal value. -/
def digitsVal : List Char → Option Nat
  | [] => none
  | l => digitsValAux 0 l

/-- Parses one decimal IPv4 octet the way Go `net.ParseIP` does: digits
only, value at most 255, no leading zero. -/
def parseOctet (cs : List Char) : Option Nat :=
  match digitsVal cs with
  | none => none
  | some n =>
      if n ≤ 255 ∧ (cs.length = 1 ∨ cs.headD ' ' ≠ '0') then some n else none

/-- Parses a dotted-quad IPv4 address into its four octets. -/
def parseIPv4 (cs : List Char) : Option (List Nat) :=
  match splitChar '.' cs with
  | [a, b, c, d] => do
      let x ← parseOctet a
      let y ← parseOctet b
      let z ← parseOctet c
      let w ← parseOctet d
      pure [x, y, z, w]
  | _ => none

/-- Masks one octet, keeping its top `k` bits (`k ≤ 8`). -/
def maskOctet (o k : Nat) : Nat :=
  o - o % 2 ^ (8 - k)

/-- Applies a prefix mask of `ones` bits to an address given as octets, as
`ip.Mask(mask)` does inside Go `net.ParseCIDR`. -/
def maskIP (ip : List Nat) (ones : Nat) : List Nat :=
  ip.enum.map (fun p => maskOctet p.2 (min 8 (ones - 8 * p.1)))

/-- Go `net.ParseCIDR` restricted to IPv4: splits at `/`, parses the
address and the prefix length (at most 32), and returns the masked network
address together with the prefix length. -/
def parseCIDRv4 (s : String) : Option (List Nat × Nat) :=
  match splitChar '/' s.toList with
  | [addr, pfx] => do
      let ip ← parseIPv4 addr
      let ones ← digitsVal pfx
      if ones ≤ 32 then pure (maskIP ip ones, ones) else none
  | _ => none

/-- Renders a four-octet address as a dotted quad, as Go `net.IP.String`
does for 4-byte addresses. -/
def ipv4String : List Nat → String
  | [a, b, c, d] =>
      toString a ++ "." ++ toString b ++ "." ++ toString c ++ "." ++ toString d
  | _ => ""

/-- Increments the last octet of an address, wrapping at 256 as the Go
byte increment `gatewayIP[len(gatewayIP)-1]++` does. -/
def incLastByte : List Nat → List Nat
  | [] => []
  | [o] => [(o + 1) % 256]
  | o :: rest => o :: incLastByte rest

/-- Increments a four-octet address as a 32-bit integer (the arithmetic
meaning of "network address plus one"), wrapping at 2^32. -/
def ipv4PlusOne (ip : List Nat) : List Nat :=
  match ip with
  | [a, b, c, d] =>
      let n := (((a * 256 + b) * 256 + c) * 256 + d + 1) % 2 ^ 32
      [n / 2 ^ 24 % 256, n / 2 ^ 16 % 256, n / 2 ^ 8 % 256, n % 256]
  | l => l

/-- Translation of `deriveNetworkConfig` (docker/network.go) for IPv4
input: parse the CIDR, take the masked network address, increment its last
byte for the gateway, and use the first half of the subnet as IP range
unless the prefix is at least `bits - 1`, in which case the original CIDR
string is returned. Returns `none` where the Go function returns an
error. -/
def deriveNetworkConfig (cidr : String) : Option (String × String) :=
  match parseCIDRv4 cidr with
  | none => none
  | some (netIP, ones) =>
      let gateway := ipv4String (incLastByte netIP)
      let ipRange :=
        if ones ≥ 32 - 1 then cidr
        else ipv4String netIP ++ "/" ++ toString (ones + 1)
      some (gateway, ipRange)

/-- Container configuration (docker/client.go `ContainerConfig`), the
fields relevant to container identity and creation. -/
structure ContainerConfig where
  Name : String
  Image : String
  Hostname : String
  NetworkName : String
  NetworkAliases : List String
  Env : List String
  deriving DecidableEq, Repr

/-- One container known to the daemon: runtime-assigned identifier, name
and running flag. -/
structure Ctr where
  id : Nat
  name : String
  running : Bool
  deriving DecidableEq, Repr

/-- The daemon's container state: the container list and the next
identifier the daemon will assign. -/
structure DockerState where
  containers : List Ctr
  nextId : Nat
  deriving DecidableEq, Repr

/-- Translation of `ContainerExists` (docker/client.go): scans the
container list for the requested name. -/
def ContainerExists (st : DockerState) (name : String) : Bool :=
  st.containers.any (fun c => c.name = name)

/-- `ContainerInspect` by name: the first container with the given name. -/
def containerInspect (st : DockerState) (name : String) : Option Ctr :=
  st.containers.find? (fun c => c.name = name)

/-- `ContainerStart` by identifier: marks the container running. -/
def containerStart (st : DockerState) (id : Nat) : DockerState :=
  { st with
    containers :=
      st.containers.map (fun c => if c.id = id then { c with running := true } else c) }

/-- Translation of `CreateContainer` (docker/client.go) over the explicit
daemon state. `pullOk` tells whether pulling a given image succeeds. If a
container with the requested name exists it is inspected, started when not
running, and its identifier returned; otherwise the image is pulled, the
container created with a fresh identifier and started. -/
def CreateContainer (pullOk : String → Bool) (config : ContainerConfig)
    (st : DockerState) : Except String Nat × DockerState :=
  if ContainerExists st config.Name then
    match containerInspect st config.Name with
    | none => (Except.error "failed to inspect existing container", st)
    | some c =>
        if ¬ c.running then
          (Except.ok c.id, containerStart st c.id)
        else
          (Except.ok c.id, st)
  else if ¬ pullOk config.Image then
    (Except.error "failed to pull image", st)
  else
    let id := st.nextId
    let created : DockerState :=
      { containers := st.containers ++ [⟨id, config.Name, false⟩]
      , nextId := id + 1 }
    (Except.ok id, containerStart created id)

/-- One Docker network known to the daemon. -/
structure Network where
  name : String
  id : Nat
  deriving DecidableEq, Repr

/-- The daemon's network state. -/
structure NetState where
  networks : List Network
  nextId : Nat
  deriving DecidableEq, Repr

/-- Network configuration (docker/network.go `NetworkConfig`). -/
structure NetworkConfig where
  Name : String
  CIDR : String
  Driver : String
  BridgeName : String
  deriving DecidableEq, Repr

/-- Translation of `NetworkExists` (docker/network.go): scans the network
list for the requested name. -/
def NetworkExists (st : NetState) (name : String) : Bool :=
  st.networks.any (fun n => n.name = name)

/-- Translation of `CreateNetwork` (docker/network.go): lists networks and
returns an error when one of the requested name already exists; otherwise
derives gateway and IP range from the CIDR and creates the network. -/
def CreateNetwork (st : NetState) (config : NetworkConfig) :
    Except String Nat × NetState :=
  if NetworkExists st config.Name then
    (Except.error ("network " ++ config.Name ++ " already exists"), st)
  else
    match deriveNetworkConfig config.CIDR with
    | none =>
        (Except.error ("failed to parse network CIDR: invalid CIDR " ++ config.CIDR), st)
    | some _ =>
        let id := st.nextId
        (Except.ok id,
          { networks := st.networks ++ [⟨config.Name, id⟩], nextId := id + 1 })

/-- The network step of the start sequence (main.go startCmd, step 1):
check whether the network exists; create it only when absent; an existing
network is used as is. -/
def startNetworkStep (st : NetState) (config : NetworkConfig) :
    Except String NetState :=
  if NetworkExists st config.Name then
    Except.ok st
  else
    match CreateNetwork st config with
    | (Except.ok _, st2) => Except.ok st2
    | (Except.error e, _) => Except.error ("failed to create network: " ++ e)

/-- Step labels of the orchestrator commands (main.go). Stop steps and
start steps get distinct labels. -/
inductive Step where
  | stopKind | stopTraefik | stopGatus | stopZot | stopStepCA | stopNetwork
  | caCert | network
  | startStepCA | startZot | trustBundle | certIssuer
  | startGatus | startTraefik | startKind | argocd
  deriving DecidableEq, Repr

/-- Service-level steps: all but the CA-certificate step and the network
create/remove steps. -/
def Step.serviceLevel : Step → Bool
  | Step.caCert => false
  | Step.network => false
  | Step.stopNetwork => false
  | _ => true

/-- Outcomes of the primitive operations the orchestrator commands call
(`none` means success, `some msg` the returned error's message).
`netCheck` is the `NetworkExists` result used by both start and stop. -/
structure OrchEnv where
  stopKindE : Option String
  stopTraefikE : Option String
  stopGatusE : Option String
  stopZotE : Option String
  stopStepCAE : Option String
  netCheck : Except String Bool
  netRemoveE : Option String
  caCertE : Option String
  netCreateE : Option String
  startStepCAE : Option String
  startZotE : Option String
  waitZotE : Option String
  pushTrustE : Option String
  pushIssuerE : Option String
  startGatusE : Option String
  startTraefikE : Option String
  startKindE : Option String
  argoE : Option String
  deriving Repr

/-- A recorded teardown failure: prefix label plus the error message, as
`fmt.Sprintf("kind: %v", err)` does in stopCmd. -/
def stepErr (label : String) : Option String → List String
  | some e => [label ++ e]
  | none => []

/-- The errors recorded by stopCmd's network step: a check failure, a
remove failure when the network exists, nothing when it is absent. -/
def stopNetworkErrs (env : OrchEnv) : List String :=
  match env.netCheck with
  | Except.error e => ["network check: " ++ e]
  | Except.ok true =>
      match env.netRemoveE with
      | some e => ["network remove: " ++ e]
      | none => []
  | Except.ok false => []

/-- Translation of stopCmd (main.go): every step runs unconditionally, its
failure is appended to the error list, and the pair of executed steps and
recorded errors is returned. -/
def stopRun (env : OrchEnv) : List Step × List String :=
  let r1 : List Step × List String :=
    ([Step.stopKind], stepErr "kind: " env.stopKindE)
  let r2 := (r1.1 ++ [Step.stopTraefik], r1.2 ++ stepErr "traefik: " env.stopTraefikE)
  let r3 := (r2.1 ++ [Step.stopGatus], r2.2 ++ stepErr "gatus: " env.stopGatusE)
  let r4 := (r3.1 ++ [Step.stopZot], r3.2 ++ stepErr "zot: " env.stopZotE)
  let r5 := (r4.1 ++ [Step.stopStepCA], r4.2 ++ stepErr "stepca: " env.stopStepCAE)
  (r5.1 ++ [Step.stopNetwork], r5.2 ++ stopNetworkErrs env)

/-- stopCmd's returned value: nil on an empty error list, otherwise one
combined error naming every failure, via `joinErrors`. -/
def stopOutcome (env : OrchEnv) : Option String :=
  match (stopRun env).2 with
  | [] => none
  | errs => some ("some services failed to stop: [" ++ joinErrors errs ++ "]")

/-- The Zot bring-up outcome: container start wrapped as startCmd does,
then the readiness wait (`WaitForZot`) wrapped as startCmd does. -/
def zotStartOutcome (env : OrchEnv) : Option String :=
  match env.startZotE with
  | some e => some ("failed to start Zot: " ++ e)
  | none =>
      match env.waitZotE with
      | some e => some ("Zot registry not ready: " ++ e)
      | none => none

/-- Translation of startCmd (main.go): CA certificate, network, then the
services in order, aborting at the first failure with its wrapped error
message; the executed steps are returned alongside the outcome. -/
def startRun (env : OrchEnv) : List Step × Option String :=
  match env.caCertE with
  | some e => ([Step.caCert], some e)
  | none =>
  match env.netCheck with
  | Except.error e =>
      ([Step.caCert, Step.network], some ("failed to check if network exists: " ++ e))
  | Except.ok b =>
  match (if b then none else env.netCreateE) with
  | some e =>
      ([Step.caCert, Step.network], some ("failed to create network: " ++ e))
  | none =>
  match env.startStepCAE with
  | some e =>
      ([Step.caCert, Step.network, Step.startStepCA],
        some ("failed to start Step CA: " ++ e))
  | none =>
  match zotStartOutcome env with
  | some e =>
      ([Step.caCert, Step.network, Step.startStepCA, Step.startZot], some e)
  | none =>
  match env.pushTrustE with
  | some e =>
      ([Step.caCert, Step.network, Step.startStepCA, Step.startZot, Step.trustBundle],
        some ("failed to push trust bundle: " ++ e))
  | none =>
  match env.pushIssuerE with
  | some e =>
      ([Step.caCert, Step.network, Step.startStepCA, Step.startZot, Step.trustBundle,
        Step.certIssuer], some ("failed to push cert-manager issuer: " ++ e))
  | none =>
  match env.startGatusE with
  | some e =>
      ([Step.caCert, Step.network, Step.startStepCA, Step.startZot, Step.trustBundle,
        Step.certIssuer, Step.startGatus], some ("failed to start Gatus: " ++ e))
  | none =>
  match env.startTraefikE with
  | some e =>
      ([Step.caCert, Step.network, Step.startStepCA, Step.startZot, Step.trustBundle,
        Step.certIssuer, Step.startGatus, Step.startTraefik],
        some ("failed to start Traefik: " ++ e))
  | none =>
  match env.startKindE with
  | some e =>
      ([Step.caCert, Step.network, Step.startStepCA, Step.startZot, Step.trustBundle,
        Step.certIssuer, Step.startGatus, Step.startTraefik, Step.startKind],
        some ("failed to start Kind: " ++ e))
  | none =>
  match env.argoE with
  | some e =>
      ([Step.caCert, Step.network, Step.startStepCA, Step.startZot, Step.trustBundle,
        Step.certIssuer, Step.startGatus, Step.startTraefik, Step.startKind, Step.argocd],
        some ("failed to bootstrap ArgoCD: " ++ e))
  | none =>
      ([Step.caCert, Step.network, Step.startStepCA, Step.startZot, Step.trustBundle,
        Step.certIssuer, Step.startGatus, Step.startTraefik, Step.startKind, Step.argocd],
        none)

/-- The stop phase of restartCmd (main.go): the five service teardown
steps run unconditionally; their errors are only printed, never recorded;
the network is not touched. -/
def restartStopPhase : List Step :=
  [Step.stopKind, Step.stopTraefik, Step.stopGatus, Step.stopZot, Step.stopStepCA]

/-- Translation of restartCmd (main.go): the stop phase with errors
discarded, then the service bring-up sequence of startCmd without its CA
certificate and network steps, aborting at the first failure. -/
def restartRun (env : OrchEnv) : List Step × Option String :=
  match env.startStepCAE with
  | some e =>
      (restartStopPhase ++ [Step.startStepCA], some ("failed to start Step CA: " ++ e))
  | none =>
  match zotStartOutcome env with
  | some e => (restartStopPhase ++ [Step.startStepCA, Step.startZot], some e)
  | none =>
  match env.pushTrustE with
  | some e =>
      (restartStopPhase ++ [Step.startStepCA, Step.startZot, Step.trustBundle],
        some ("failed to push trust bundle: " ++ e))
  | none =>
  match env.pushIssuerE with
  | some e =>
      (restartStopPhase ++ [Step.startStepCA, Step.startZot, Step.trustBundle,
        Step.certIssuer], some ("failed to push cert-manager issuer: " ++ e))
  | none =>
  match env.startGatusE with
  | some e =>
      (restartStopPhase ++ [Step.startStepCA, Step.startZot, Step.trustBundle,
        Step.certIssuer, Step.startGatus], some ("failed to start Gatus: " ++ e))
  | none =>
  match env.startTraefikE with
  | some e =>
      (restartStopPhase ++ [Step.startStepCA, Step.startZot, Step.trustBundle,
        Step.certIssuer, Step.startGatus, Step.startTraefik],
        some ("failed to start Traefik: " ++ e))
  | none =>
  match env.startKindE with
  | some e =>
      (restartStopPhase ++ [Step.startStepCA, Step.startZot, Step.trustBundle,
        Step.certIssuer, Step.startGatus, Step.startTraefik, Step.startKind],
        some ("failed to start Kind: " ++ e))
  | none =>
  match env.argoE with
  | some e =>
      (restartStopPhase ++ [Step.startStepCA, Step.startZot, Step.trustBundle,
        Step.certIssuer, Step.startGatus, Step.startTraefik, Step.startKind, Step.argocd],
        some ("failed to bootstrap ArgoCD: " ++ e))
  | none =>
      (restartStopPhase ++ [Step.startStepCA, Step.startZot, Step.trustBundle,
        Step.certIssuer, Step.startGatus, Step.startTraefik, Step.startKind, Step.argocd],
        none)

/-- The stop operation with the network-teardown step skipped: stopCmd
minus its network block (the composition operand the specification
describes for restart). -/
def stopNoNetRun (env : OrchEnv) : List Step × List String :=
  let r1 : List Step × List String :=
    ([Step.stopKind], stepErr "kind: " env.stopKindE)
  let r2 := (r1.1 ++ [Step.stopTraefik], r1.2 ++ stepErr "traefik: " env.stopTraefikE)
  let r3 := (r2.1 ++ [Step.stopGatus], r2.2 ++ stepErr "gatus: " env.stopGatusE)
  let r4 := (r3.1 ++ [Step.stopZot], r3.2 ++ stepErr "zot: " env.stopZotE)
  (r4.1 ++ [Step.stopStepCA], r4.2 ++ stepErr "stepca: " env.stopStepCAE)

/-- The outcome of the skipped-network stop: nil on no failures, otherwise
the combined error in stopCmd's format. -/
def stopNoNetOutcome (env : OrchEnv) : Option String :=
  match (stopNoNetRun env).2 with
  | [] => none
  | errs => some ("some services failed to stop: [" ++ joinErrors errs ++ "]")

/-- The composition the specification equates restart with: the stop
operation (network teardown skipped) followed by the full start operation,
the first error surfacing as the overall outcome. -/
def stopThenStart (env : OrchEnv) : List Step × Option String :=
  ((stopNoNetRun env).1 ++ (startRun env).1,
    match stopNoNetOutcome env with
    | some e => some e
    | none => (startRun env).2)

/-- A distinguished name (`pkix.Name`), the fields the code sets. -/
structure PkixName where
  commonName : String
  organization : List String
  deriving DecidableEq, Repr

/-- A private key as parsed from PKCS8: the ECDSA P-256 keys the generator
creates, or a key of another type. The identifier stands for the random
key material. -/
inductive PrivKey where
  | ecdsaP256 (id : Nat)
  | otherKey (id : Nat)
  deriving DecidableEq, Repr

/-- An x509 key-usage flag used by the generator. -/
inductive KeyUsage where
  | certSign | crlSign | digitalSignature
  deriving DecidableEq, Repr

/-- A permitted IP range of the name constraints: address text and the
`CIDRMask(ones, bits)` arguments. -/
structure IPRange where
  addr : String
  maskOnes : Nat
  maskBits : Nat
  deriving DecidableEq, Repr

/-- An x509 certificate, restricted to the fields the cacert package sets
or the claims mention. `publicKeyOf` is the keypair whose public half is
certified, `signedBy` the key the certificate is signed with (taken from
the parent of `x509.CreateCertificate`). -/
structure Cert where
  serialNumber : Nat
  subject : PkixName
  issuer : PkixName
  keyUsage : List KeyUsage
  basicConstraintsValid : Bool
  isCA : Bool
  maxPathLen : Nat
  maxPathLenZero : Bool
  permittedDNSDomainsCritical : Bool
  permittedDNSDomains : List String
  permittedIPRanges : List IPRange
  publicKeyOf : PrivKey
  signedBy : PrivKey
  deriving DecidableEq, Repr

/-- Content of a file on disk, as the cacert package decodes it: a
PEM-encoded certificate, a PEM-encoded private key, or other data. -/
inductive FileData where
  | certPEM (c : Cert)
  | keyPEM (k : PrivKey)
  | rawData (s : String)
  deriving DecidableEq, Repr

/-- The file system: a write log, newest entry first. -/
def FS := List (String × FileData)

/-- Reading a path returns its most recent write. -/
def fsRead (fs : FS) (path : String) : Option FileData :=
  (fs.find? (fun p => p.1 = path)).map (fun p => p.2)

/-- Writing a path shadows earlier writes. -/
def fsWrite (fs : FS) (path : String) (d : FileData) : FS :=
  (path, d) :: fs

/-- The random draws one generator invocation makes: the 128-bit serial
number and the fresh key material. -/
structure Entropy where
  serial : Nat
  keyId : Nat
  deriving DecidableEq, Repr

/-- The self-signed root certificate template built by
`GenerateCAWithDomain` (cacert package): `CertSign|CRLSign` key usage,
critical name constraints permitting `domain`, `"." + domain`,
`localhost`, `.localhost` and the Step CA alias `stepca`, and the three
permitted IP ranges. Self-signing makes the issuer the subject itself. -/
def rootCertTemplate (hostname domain : String) (serial : Nat)
    (key : PrivKey) : Cert :=
  { serialNumber := serial
  , subject :=
      { commonName := "kinder Root CA (" ++ hostname ++ ")"
      , organization := ["kinder"] }
  , issuer :=
      { commonName := "kinder Root CA (" ++ hostname ++ ")"
      , organization := ["kinder"] }
  , keyUsage := [KeyUsage.certSign, KeyUsage.crlSign]
  , basicConstraintsValid := true
  , isCA := true
  , maxPathLen := 0
  , maxPathLenZero := false
  , permittedDNSDomainsCritical := true
  , permittedDNSDomains := [domain, "." ++ domain, "localhost", ".localhost", "stepca"]
  , permittedIPRanges :=
      [⟨"127.0.0.1", 32, 32⟩, ⟨"::1", 128, 128⟩, ⟨"192.0.2.0", 24, 32⟩]
  , publicKeyOf := key
  , signedBy := key }

/-- Translation of `GenerateCAWithDomain` (cacert package): generate an
ECDSA P-256 key and a random serial from the entropy, build the root
template for the domain, self-sign it, write the certificate then the key
(overwriting whatever the paths held). The machine hostname is passed
explicitly. -/
def GenerateCAWithDomain (fs : FS) (certPath keyPath domain : String)
    (hostname : String) (r : Entropy) : FS :=
  let privateKey := PrivKey.ecdsaP256 r.keyId
  let cert := rootCertTemplate hostname domain r.serial privateKey
  fsWrite (fsWrite fs certPath (FileData.certPEM cert)) keyPath
    (FileData.keyPEM privateKey)

/-- The intermediate certificate template built by `GenerateIntermediate`
(cacert package): `DigitalSignature|CertSign|CRLSign` key usage,
`MaxPathLen = 0` with `MaxPathLenZero` set, issuer taken from the signing
parent's subject by `x509.CreateCertificate`. -/
def intermediateCertTemplate (issuer : PkixName) (rootPrivateKey : PrivKey)
    (intermediateKey : PrivKey) (serial : Nat) : Cert :=
  { serialNumber := serial
  , subject :=
      { commonName := "kinder Intermediate CA", organization := ["kinder"] }
  , issuer := issuer
  , keyUsage := [KeyUsage.digitalSignature, KeyUsage.certSign, KeyUsage.crlSign]
  , basicConstraintsValid := true
  , isCA := true
  , maxPathLen := 0
  , maxPathLenZero := true
  , permittedDNSDomainsCritical := false
  , permittedDNSDomains := []
  , permittedIPRanges := []
  , publicKeyOf := intermediateKey
  , signedBy := rootPrivateKey }

/-- Translation of `GenerateIntermediate` (cacert package): read and
decode the root certificate and key, reject a non-ECDSA root key, build
the intermediate template, sign it with the root key under the root
certificate's subject as issuer, and write certificate and key. -/
def GenerateIntermediate (fs : FS)
    (rootCertPath rootKeyPath intermediateCertPath intermediateKeyPath : String)
    (r : Entropy) : Except String FS :=
  match fsRead fs rootCertPath with
  | none => Except.error "failed to read root certificate"
  | some (FileData.keyPEM _) => Except.error "failed to parse root certificate"
  | some (FileData.rawData _) => Except.error "failed to decode root certificate PEM"
  | some (FileData.certPEM rootCert) =>
    match fsRead fs rootKeyPath with
    | none => Except.error "failed to read root private key"
    | some (FileData.certPEM _) => Except.error "failed to parse root private key"
    | some (FileData.rawData _) => Except.error "failed to decode root private key PEM"
    | some (FileData.keyPEM rootKey) =>
      match rootKey with
      | PrivKey.otherKey _ => Except.error "root private key is not ECDSA"
      | PrivKey.ecdsaP256 kid =>
        let intermediateKey := PrivKey.ecdsaP256 r.keyId
        let cert := intermediateCertTemplate rootCert.subject
          (PrivKey.ecdsaP256 kid) intermediateKey r.serial
        Except.ok (fsWrite
          (fsWrite fs intermediateCertPath (FileData.certPEM cert))
          intermediateKeyPath (FileData.keyPEM intermediateKey))

/-! ## Theorems -/

theorem fsRead_fsWrite_same (fs : FS) (p : String) (d : FileData) :
    fsRead (fsWrite fs p d) p = some d := by
  simp [fsRead, fsWrite]

theorem fsRead_fsWrite_other (fs : FS) (p q : String) (d : FileData)
    (h : q ≠ p) : fsRead (fsWrite fs p d) q = fsRead fs q := by
  simp [fsRead, fsWrite, List.find?_cons, Ne.symm h]

/-- C10: cleaning container data from an existing data directory removes
every entry whose name is not the CA certificate filename and not the CA
key filename, keeps those entries unchanged, and succeeds doing nothing
when the data directory does not exist. -/
theorem cleanContainerData_spec :
    cleanContainerData none = Except.ok none ∧
    ∀ entries : List Entry, ∃ kept : List Entry,
      cleanContainerData (some entries) = Except.ok (some kept) ∧
      ∀ e : Entry,
        e ∈ kept ↔ e ∈ entries ∧ (e.name = CACertFilename ∨ e.name = CAKeyFilename) := by
  refine ⟨rfl, ?_⟩
  intro entries
  refine ⟨_, rfl, ?_⟩
  intro e
  simp [List.mem_filter]

/-- C3: when a network of the requested name already exists, the network
step of the start sequence accepts it without error and proceeds with the
state unchanged, using the existing network. -/
theorem network_idempotent_create (st : NetState) (config : NetworkConfig)
    (h : NetworkExists st config.Name = true) :
    startNetworkStep st config = Except.ok st := by
  simp [startNetworkStep, h]

theorem network_idempotent_create_witness :
    NetworkExists ⟨[⟨"kind", 7⟩], 8⟩ "kind" = true ∧
    startNetworkStep ⟨[⟨"kind", 7⟩], 8⟩ ⟨"kind", "172.28.28.0/24", "bridge", "kindbr0"⟩ =
      Except.ok ⟨[⟨"kind", 7⟩], 8⟩ :=
  ⟨by decide, network_idempotent_create _ _ (by decide)⟩

/-- C7: the root certificate generated for any domain carries critical
name constraints whose permitted DNS domains are exactly the five entries
domain, "." + domain, localhost, .localhost and the Step CA alias, and
whose permitted IP ranges are exactly 127.0.0.1/32, ::1/128 and
192.0.2.0/24. -/
theorem rootCA_name_constraints (fs : FS)
    (certPath keyPath domain hostname : String) (r : Entropy)
    (h : certPath ≠ keyPath) :
    ∃ c : Cert,
      fsRead (GenerateCAWithDomain fs certPath keyPath domain hostname r) certPath =
        some (FileData.certPEM c) ∧
      c.permittedDNSDomainsCritical = true ∧
      c.permittedDNSDomains =
        [domain, "." ++ domain, "localhost", ".localhost", "stepca"] ∧
      c.permittedDNSDomains.length = 5 ∧
      c.permittedIPRanges =
        [⟨"127.0.0.1", 32, 32⟩, ⟨"::1", 128, 128⟩, ⟨"192.0.2.0", 24, 32⟩] := by
  refine ⟨rootCertTemplate hostname domain r.serial (PrivKey.ecdsaP256 r.keyId), ?_, rfl, rfl, rfl, rfl⟩
  rw [GenerateCAWithDomain, fsRead_fsWrite_other _ _ _ _ h, fsRead_fsWrite_same]

theorem rootCA_name_constraints_witness :
    ("ca.crt" : String) ≠ "ca.key" ∧
    ∃ c : Cert,
      fsRead (GenerateCAWithDomain [] "ca.crt" "ca.key" "example.test" "host1" ⟨5, 6⟩) "ca.crt" =
        some (FileData.certPEM c) ∧
      c.permittedDNSDomainsCritical = true ∧
      c.permittedDNSDomains =
        ["example.test", "." ++ "example.test", "localhost", ".localhost", "stepca"] ∧
      c.permittedDNSDomains.length = 5 ∧
      c.permittedIPRanges =
        [⟨"127.0.0.1", 32, 32⟩, ⟨"::1", 128, 128⟩, ⟨"192.0.2.0", 24, 32⟩] :=
  ⟨by decide, rootCA_name_constraints [] "ca.crt" "ca.key" "example.test" "host1" ⟨5, 6⟩ (by decide)⟩

/-- C9: root-CA generation is not idempotent: two invocations at the same
destination with different random draws both overwrite the certificate and
key files, and yield certificates with different serial numbers and
different private key material. -/
theorem rootCA_not_idempotent (fs : FS) (cp kp domain hostname : String)
    (r1 r2 : Entropy) (h : cp ≠ kp) (hs : r1.serial ≠ r2.serial)
    (hk : r1.keyId ≠ r2.keyId) :
    fsRead (GenerateCAWithDomain fs cp kp domain hostname r1) cp =
      some (FileData.certPEM
        (rootCertTemplate hostname domain r1.serial (PrivKey.ecdsaP256 r1.keyId))) ∧
    fsRead (GenerateCAWithDomain fs cp kp domain hostname r1) kp =
      some (FileData.keyPEM (PrivKey.ecdsaP256 r1.keyId)) ∧
    fsRead (GenerateCAWithDomain (GenerateCAWithDomain fs cp kp domain hostname r1)
        cp kp domain hostname r2) cp =
      some (FileData.certPEM
        (rootCertTemplate hostname domain r2.serial (PrivKey.ecdsaP256 r2.keyId))) ∧
    fsRead (GenerateCAWithDomain (GenerateCAWithDomain fs cp kp domain hostname r1)
        cp kp domain hostname r2) kp =
      some (FileData.keyPEM (PrivKey.ecdsaP256 r2.keyId)) ∧
    (rootCertTemplate hostname domain r1.serial (PrivKey.ecdsaP256 r1.keyId)).serialNumber ≠
      (rootCertTemplate hostname domain r2.serial (PrivKey.ecdsaP256 r2.keyId)).serialNumber ∧
    PrivKey.ecdsaP256 r1.keyId ≠ PrivKey.ecdsaP256 r2.keyId := by
  refine ⟨?_, ?_, ?_, ?_, hs, by simp [hk]⟩ <;>
    simp [GenerateCAWithDomain, fsRead_fsWrite_same, fsRead_fsWrite_other _ _ _ _ h]

theorem rootCA_not_idempotent_witness :
    ("ca.crt" : String) ≠ "ca.key" ∧ (1 : Nat) ≠ 3 ∧ (2 : Nat) ≠ 4 ∧
    (fsRead (GenerateCAWithDomain (GenerateCAWithDomain [] "ca.crt" "ca.key"
        "example.test" "host1" ⟨1, 2⟩) "ca.crt" "ca.key" "example.test" "host1" ⟨3, 4⟩) "ca.crt" =
      some (FileData.certPEM
        (rootCertTemplate "host1" "example.test" 3 (PrivKey.ecdsaP256 4))) ∧
    PrivKey.ecdsaP256 (1 : Nat) ≠ PrivKey.ecdsaP256 2) := by
  have h := rootCA_not_idempotent [] "ca.crt" "ca.key" "example.test" "host1"
    ⟨1, 2⟩ ⟨3, 4⟩ (by decide) (by decide) (by decide)
  exact ⟨by decide, by decide, by decide, h.2.2.1, by decide⟩

/-- C8: generating a root CA for any domain and then an intermediate from
the root's certificate and key files yields an intermediate certificate
whose issuer is the root certificate's subject, signed by the root key,
with `MaxPathLen = 0` and `MaxPathLenZero` set; and intermediate
generation fails when the root private key parsed from disk is not an
ECDSA key. -/
theorem intermediate_from_root_spec :
    (∀ (fs : FS) (cp kp icp ikp domain hostname : String) (r1 r2 : Entropy),
      cp ≠ kp → icp ≠ ikp →
      ∃ (fs2 : FS) (ic : Cert),
        GenerateIntermediate (GenerateCAWithDomain fs cp kp domain hostname r1)
          cp kp icp ikp r2 = Except.ok fs2 ∧
        fsRead fs2 icp = some (FileData.certPEM ic) ∧
        ic.issuer =
          (rootCertTemplate hostname domain r1.serial (PrivKey.ecdsaP256 r1.keyId)).subject ∧
        ic.signedBy = PrivKey.ecdsaP256 r1.keyId ∧
        ic.maxPathLen = 0 ∧ ic.maxPathLenZero = true) ∧
    (∀ (fs : FS) (cp kp icp ikp : String) (r : Entropy) (c : Cert) (kid : Nat),
      fsRead fs cp = some (FileData.certPEM c) →
      fsRead fs kp = some (FileData.keyPEM (PrivKey.otherKey kid)) →
      GenerateIntermediate fs cp kp icp ikp r =
        Except.error "root private key is not ECDSA") := by
  constructor
  · intro fs cp kp icp ikp domain hostname r1 r2 h hi
    have hc : fsRead (GenerateCAWithDomain fs cp kp domain hostname r1) cp =
        some (FileData.certPEM
          (rootCertTemplate hostname domain r1.serial (PrivKey.ecdsaP256 r1.keyId))) := by
      rw [GenerateCAWithDomain, fsRead_fsWrite_other _ _ _ _ h, fsRead_fsWrite_same]
    have hk : fsRead (GenerateCAWithDomain fs cp kp domain hostname r1) kp =
        some (FileData.keyPEM (PrivKey.ecdsaP256 r1.keyId)) := by
      rw [GenerateCAWithDomain, fsRead_fsWrite_same]
    refine ⟨fsWrite (fsWrite (GenerateCAWithDomain fs cp kp domain hostname r1) icp
        (FileData.certPEM (intermediateCertTemplate
          (rootCertTemplate hostname domain r1.serial (PrivKey.ecdsaP256 r1.keyId)).subject
          (PrivKey.ecdsaP256 r1.keyId) (PrivKey.ecdsaP256 r2.keyId) r2.serial)))
        ikp (FileData.keyPEM (PrivKey.ecdsaP256 r2.keyId)),
      intermediateCertTemplate
        (rootCertTemplate hostname domain r1.serial (PrivKey.ecdsaP256 r1.keyId)).subject
        (PrivKey.ecdsaP256 r1.keyId) (PrivKey.ecdsaP256 r2.keyId) r2.serial,
      ?_, ?_, rfl, rfl, rfl, rfl⟩
    · rw [GenerateIntermediate, hc, hk]
    · rw [fsRead_fsWrite_other _ _ _ _ hi, fsRead_fsWrite_same]
  · intro fs cp kp icp ikp r c kid hc hk
    rw [GenerateIntermediate, hc, hk]

theorem intermediate_from_root_witness :
    (("ca.crt" : String) ≠ "ca.key" ∧ ("i.crt" : String) ≠ "i.key" ∧
      ∃ (fs2 : FS) (ic : Cert),
        GenerateIntermediate
          (GenerateCAWithDomain [] "ca.crt" "ca.key" "example.test" "host1" ⟨1, 2⟩)
          "ca.crt" "ca.key" "i.crt" "i.key" ⟨3, 4⟩ = Except.ok fs2 ∧
        fsRead fs2 "i.crt" = some (FileData.certPEM ic) ∧
        ic.issuer =
          (rootCertTemplate "host1" "example.test" 1 (PrivKey.ecdsaP256 2)).subject ∧
        ic.signedBy = PrivKey.ecdsaP256 2 ∧
        ic.maxPathLen = 0 ∧ ic.maxPathLenZero = true) ∧
    GenerateIntermediate [("k", FileData.keyPEM (PrivKey.otherKey 9)),
        ("c", FileData.certPEM (rootCertTemplate "host1" "example.test" 1 (PrivKey.ecdsaP256 2)))]
      "c" "k" "i.crt" "i.key" ⟨3, 4⟩ =
      Except.error "root private key is not ECDSA" := by
  constructor
  · exact ⟨by decide, by decide,
      intermediate_from_root_spec.1 [] "ca.crt" "ca.key" "i.crt" "i.key"
        "example.test" "host1" ⟨1, 2⟩ ⟨3, 4⟩ (by decide) (by decide)⟩
  · exact intermediate_from_root_spec.2 _ "c" "k" "i.crt" "i.key" ⟨3, 4⟩
      (rootCertTemplate "host1" "example.test" 1 (PrivKey.ecdsaP256 2)) 9
      (by decide) (by decide)

/-- C6: for every mirrored registry `r` with mirror URL `m`, the generated
`hosts.toml` is placed under the directory named `normalize(r)` — where
`normalize` maps `registry-1.docker.io` to `docker.io` and is the identity
elsewhere — its server line is the canonical upstream server URL for `r`,
and it holds exactly one host section, keyed by `m ++ "/" ++ r` with the
original, unnormalized registry name. -/
theorem mirror_descriptor_spec (certsDir caData : String)
    (mirrors : List (String × String)) (r m : String)
    (hmem : (r, m) ∈ mirrors) :
    (certsDir ++ "/" ++ normalizeRegistryName r ++ "/hosts.toml",
      mirrorHostsToml r m) ∈ writtenMirrorFiles certsDir caData mirrors ∧
    mirrorHostsToml r m = renderHostsToml (mirrorDescriptor r m) ∧
    (mirrorDescriptor r m).server = getUpstreamServer r ∧
    (mirrorDescriptor r m).hosts = [(m ++ "/" ++ r, ["pull", "resolve"])] ∧
    (mirrorDescriptor r m).hosts.length = 1 ∧
    normalizeRegistryName "registry-1.docker.io" = "docker.io" ∧
    (r ≠ "registry-1.docker.io" → normalizeRegistryName r = r) := by
  refine ⟨?_, ?_, rfl, ?_, rfl, by decide, ?_⟩
  · rw [writtenMirrorFiles, List.mem_flatMap]
    exact ⟨(r, m), hmem, List.mem_cons_self _ _⟩
  · simp [mirrorHostsToml, renderHostsToml, renderHostSection, mirrorDescriptor,
      MirrorPath, joinErrors, String.join, String.ext_iff, String.data_append,
      List.append_assoc]
  · simp [mirrorDescriptor, MirrorPath, Prod.ext_iff, String.ext_iff,
      String.data_append, List.append_assoc]
  · intro hne
    simp [normalizeRegistryName, hne]

theorem mirror_descriptor_spec_witness :
    (("registry-1.docker.io", "http://zot:5000") ∈
      [(("registry-1.docker.io" : String), ("http://zot:5000" : String))]) ∧
    (("data/certs.d" ++ "/" ++ normalizeRegistryName "registry-1.docker.io" ++ "/hosts.toml",
        mirrorHostsToml "registry-1.docker.io" "http://zot:5000") ∈
      writtenMirrorFiles "data/certs.d" "PEMDATA"
        [("registry-1.docker.io", "http://zot:5000")] ∧
      mirrorHostsToml "registry-1.docker.io" "http://zot:5000" =
        renderHostsToml (mirrorDescriptor "registry-1.docker.io" "http://zot:5000") ∧
      (mirrorDescriptor "registry-1.docker.io" "http://zot:5000").server =
        getUpstreamServer "registry-1.docker.io" ∧
      (mirrorDescriptor "registry-1.docker.io" "http://zot:5000").hosts =
        [("http://zot:5000" ++ "/" ++ "registry-1.docker.io", ["pull", "resolve"])] ∧
      (mirrorDescriptor "registry-1.docker.io" "http://zot:5000").hosts.length = 1 ∧
      normalizeRegistryName "registry-1.docker.io" = "docker.io" ∧
      (("registry-1.docker.io" : String) ≠ "registry-1.docker.io" →
        normalizeRegistryName "registry-1.docker.io" = "registry-1.docker.io")) :=
  ⟨by decide, mirror_descriptor_spec "data/certs.d" "PEMDATA" _ _ _ (by decide)⟩

/-- C5 counterexample: on the syntactically valid CIDR `10.0.0.255/32`
the derived gateway is `10.0.0.0` (the last byte wraps), while the network
address plus one is `10.0.1.0` — so the gateway does not always equal the
network address plus one. -/
theorem deriveNetworkConfig_gateway_counterexample :
    parseCIDRv4 "10.0.0.255/32" = some ([10, 0, 0, 255], 32) ∧
    deriveNetworkConfig "10.0.0.255/32" = some ("10.0.0.0", "10.0.0.255/32") ∧
    ipv4String (ipv4PlusOne [10, 0, 0, 255]) = "10.0.1.0" ∧
    ("10.0.0.0" : String) ≠ "10.0.1.0" := by
  decide

/-- C5 (amended): for every syntactically valid CIDR, the derived gateway
is the network address with its last octet incremented modulo 256 — which
equals the network address plus one whenever that last octet is not 255 —
and the derived IP range is the network address with the prefix length
increased by one, except that when the prefix is already too long to split
(at least bits − 1) the original CIDR string is returned unchanged. -/
theorem deriveNetworkConfig_spec (cidr : String) (netIP : List Nat) (ones : Nat)
    (h : parseCIDRv4 cidr = some (netIP, ones)) :
    deriveNetworkConfig cidr =
      some (ipv4String (incLastByte netIP),
        if ones ≥ 32 - 1 then cidr
        else ipv4String netIP ++ "/" ++ toString (ones + 1)) ∧
    (∀ a b c d : Nat, a ≤ 255 → b ≤ 255 → c ≤ 255 → d < 255 →
      incLastByte [a, b, c, d] = ipv4PlusOne [a, b, c, d]) := by
  constructor
  · rw [deriveNetworkConfig, h]
  · intro a b c d ha hb hc hd
    simp only [incLastByte, ipv4PlusOne]
    have hm : (d + 1) % 256 = d + 1 := Nat.mod_eq_of_lt (by omega)
    rw [hm]
    have hn : (((a * 256 + b) * 256 + c) * 256 + d + 1) % 2 ^ 32 =
        ((a * 256 + b) * 256 + c) * 256 + d + 1 :=
      Nat.mod_eq_of_lt (by omega)
    rw [hn]
    have h24 : (((a * 256 + b) * 256 + c) * 256 + d + 1) / 2 ^ 24 % 256 = a := by
      omega
    have h16 : (((a * 256 + b) * 256 + c) * 256 + d + 1) / 2 ^ 16 % 256 = b := by
      omega
    have h8 : (((a * 256 + b) * 256 + c) * 256 + d + 1) / 2 ^ 8 % 256 = c := by
      omega
    have h0 : (((a * 256 + b) * 256 + c) * 256 + d + 1) % 256 = d + 1 := by
      omega
    rw [h24, h16, h8, h0]

theorem deriveNetworkConfig_spec_witness :
    parseCIDRv4 "172.28.28.0/24" = some ([172, 28, 28, 0], 24) ∧
    deriveNetworkConfig "172.28.28.0/24" = some ("172.28.28.1", "172.28.28.0/25") ∧
    incLastByte [172, 28, 28, 0] = ipv4PlusOne [172, 28, 28, 0] := by
  have h := deriveNetworkConfig_spec "172.28.28.0/24" [172, 28, 28, 0] 24 (by decide)
  exact ⟨by decide, by decide, h.2 172 28 28 0 (by decide) (by decide) (by decide) (by decide)⟩

theorem containerStart_pred (i : Nat) (n : String) :
    ((fun c : Ctr => decide (c.name = n)) ∘
      (fun c : Ctr => if c.id = i then { c with running := true } else c)) =
    (fun c : Ctr => decide (c.name = n)) := by
  funext c
  by_cases h : c.id = i <;> simp [h]

theorem containerStart_exists (st : DockerState) (i : Nat) (n : String) :
    ContainerExists (containerStart st i) n = ContainerExists st n := by
  rw [ContainerExists, ContainerExists, containerStart, List.any_map,
    containerStart_pred]

theorem containerInspect_start (st : DockerState) (i : Nat) (n : String) :
    containerInspect (containerStart st i) n =
      (containerInspect st n).map
        (fun c => if c.id = i then { c with running := true } else c) := by
  rw [containerInspect, containerInspect, containerStart, List.find?_map,
    containerStart_pred]

theorem containerInspect_exists (st : DockerState) (n : String) (c : Ctr)
    (h : containerInspect st n = some c) : ContainerExists st n = true := by
  rw [containerInspect] at h
  rw [ContainerExists, List.any_eq_true]
  refine ⟨c, List.mem_of_find?_eq_some h, ?_⟩
  have hp := List.find?_some h
  simpa using hp

/-- After a successful `CreateContainer`, a container with the requested
name exists in the resulting state, is running, and carries the returned
identifier. -/
theorem CreateContainer_post (pullOk : String → Bool) (cfg : ContainerConfig)
    (st st' : DockerState) (id : Nat)
    (h : CreateContainer pullOk cfg st = (Except.ok id, st')) :
    ∃ c : Ctr, containerInspect st' cfg.Name = some c ∧
      c.running = true ∧ c.id = id := by
  rw [CreateContainer] at h
  by_cases hex : ContainerExists st cfg.Name
  · simp only [hex, if_true] at h
    cases hins : containerInspect st cfg.Name with
    | none => simp [hins] at h
    | some c =>
        simp only [hins] at h
        by_cases hrun : c.running
        · simp [hrun] at h
          obtain ⟨h1, h2⟩ := h
          subst h2
          exact ⟨c, hins, hrun, by omega⟩
        · simp [hrun] at h
          obtain ⟨h1, h2⟩ := h
          subst h2
          refine ⟨{ c with running := true }, ?_, rfl, by simp; omega⟩
          rw [containerInspect_start, hins]
          simp
  · simp only [hex, if_false, Bool.false_eq_true, ite_false] at h
    by_cases hpull : pullOk cfg.Image
    · simp [hpull] at h
      obtain ⟨h1, h2⟩ := h
      subst h2
      refine ⟨⟨st.nextId, cfg.Name, true⟩, ?_, rfl, by simp; omega⟩
      rw [containerInspect_start, containerInspect, List.find?_append]
      have hnone :
          List.find? (fun c => c.name = cfg.Name) st.containers = none := by
        rw [List.find?_eq_none]
        intro x hx hpx
        exact hex (by rw [ContainerExists, List.any_eq_true]; exact ⟨x, hx, hpx⟩)
      rw [hnone]
      simp
    · simp [hpull] at h

/-- C2: a second `CreateContainer` invocation that finds the container
created by a first successful invocation of the same name returns the same
identifier without error, leaves the daemon state unchanged (no
re-creation), and its result does not depend on the rest of the supplied
configuration or on image pullability (no reconciliation). -/
theorem CreateContainer_idempotent (pullOk pullOk' : String → Bool)
    (cfg cfg' : ContainerConfig) (st st' : DockerState) (id : Nat)
    (hname : cfg'.Name = cfg.Name)
    (h : CreateContainer pullOk cfg st = (Except.ok id, st')) :
    CreateContainer pullOk' cfg' st' = (Except.ok id, st') := by
  obtain ⟨c, hins, hrun, hid⟩ := CreateContainer_post pullOk cfg st st' id h
  rw [CreateContainer, hname]
  simp [containerInspect_exists st' cfg.Name c hins, hins, hrun, hid]

theorem CreateContainer_idempotent_witness :
    (CreateContainer (fun _ => true)
        ⟨"zot", "img1", "zot", "kind", ["zot"], []⟩ ⟨[], 0⟩ =
      (Except.ok 0, ⟨[⟨0, "zot", true⟩], 1⟩)) ∧
    CreateContainer (fun _ => false)
        ⟨"zot", "img2", "other", "kind2", [], ["E=1"]⟩ ⟨[⟨0, "zot", true⟩], 1⟩ =
      (Except.ok 0, ⟨[⟨0, "zot", true⟩], 1⟩) :=
  ⟨rfl, CreateContainer_idempotent (fun _ => true) (fun _ => false)
    ⟨"zot", "img1", "zot", "kind", ["zot"], []⟩
    ⟨"zot", "img2", "other", "kind2", [], ["E=1"]⟩
    ⟨[], 0⟩ ⟨[⟨0, "zot", true⟩], 1⟩ 0 (by decide) rfl⟩

/-- Every member of the error list appears verbatim inside the
`joinErrors` aggregate. -/
theorem joinErrors_mem_inside (l : List String) (s : String) (h : s ∈ l) :
    s.data <:+: (joinErrors l).data := by
  induction l with
  | nil => cases h
  | cons e rest ih =>
      cases rest with
      | nil =>
          rcases List.mem_singleton.mp h with rfl
          exact List.infix_refl _
      | cons r rs =>
          rcases List.mem_cons.mp h with rfl | hmem
          · have hj : joinErrors (s :: r :: rs) = s ++ ", " ++ joinErrors (r :: rs) := rfl
            rw [hj, String.data_append, String.data_append]
            exact ⟨[], (", ".data ++ (joinErrors (r :: rs)).data), by simp⟩
          · refine (ih hmem).trans ?_
            have hj : joinErrors (e :: r :: rs) = e ++ ", " ++ joinErrors (r :: rs) := rfl
            rw [hj, String.data_append, String.data_append]
            exact ⟨e.data ++ ", ".data, [], by simp⟩

/-- Wrapping the aggregate in a prefix and suffix keeps members inside. -/
theorem infix_wrap (s t a b : String) (h : s.data <:+: t.data) :
    s.data <:+: (a ++ t ++ b).data := by
  refine h.trans ?_
  rw [String.data_append, String.data_append]
  exact List.infix_append _ _ _

/-- C1: every teardown step of the stop operation executes regardless of
earlier failures; each failed step is recorded with its label; the
operation succeeds exactly when no failure was recorded, and otherwise
returns one combined error in which every recorded failure appears. -/
theorem stop_best_effort_spec (env : OrchEnv) :
    (stopRun env).1 = [Step.stopKind, Step.stopTraefik, Step.stopGatus,
      Step.stopZot, Step.stopStepCA, Step.stopNetwork] ∧
    ((stopRun env).2 = [] ↔ stopOutcome env = none) ∧
    (∀ e, env.stopKindE = some e → ("kind: " ++ e) ∈ (stopRun env).2) ∧
    (∀ e, env.stopTraefikE = some e → ("traefik: " ++ e) ∈ (stopRun env).2) ∧
    (∀ e, env.stopGatusE = some e → ("gatus: " ++ e) ∈ (stopRun env).2) ∧
    (∀ e, env.stopZotE = some e → ("zot: " ++ e) ∈ (stopRun env).2) ∧
    (∀ e, env.stopStepCAE = some e → ("stepca: " ++ e) ∈ (stopRun env).2) ∧
    (∀ s, s ∈ (stopRun env).2 →
      ∃ msg, stopOutcome env = some msg ∧ s.data <:+: msg.data) ∧
    (env.stopKindE = none ∧ env.stopTraefikE = none ∧ env.stopGatusE = none ∧
      env.stopZotE = none ∧ env.stopStepCAE = none ∧ stopNetworkErrs env = [] →
      stopOutcome env = none) := by
  refine ⟨rfl, ?_, ?_, ?_, ?_, ?_, ?_, ?_, ?_⟩
  · rw [stopOutcome]
    cases h : (stopRun env).2 with
    | nil => simp
    | cons a l => simp
  · intro e he
    simp [stopRun, stepErr, he]
  · intro e he
    simp [stopRun, stepErr, he]
  · intro e he
    simp [stopRun, stepErr, he]
  · intro e he
    simp [stopRun, stepErr, he]
  · intro e he
    simp [stopRun, stepErr, he]
  · intro s hs
    rw [stopOutcome]
    cases h : (stopRun env).2 with
    | nil => rw [h] at hs; cases hs
    | cons a l =>
        refine ⟨_, rfl, ?_⟩
        rw [h] at hs
        exact infix_wrap s (joinErrors (a :: l))
          "some services failed to stop: [" "]" (joinErrors_mem_inside _ _ hs)
  · rintro ⟨h1, h2, h3, h4, h5, h6⟩
    rw [stopOutcome]
    have : (stopRun env).2 = [] := by
      simp [stopRun, stepErr, h1, h2, h3, h4, h5, h6]
    rw [this]

theorem stop_best_effort_witness :
    (stopRun ⟨some "boom", none, none, none, some "bust", Except.ok false,
        none, none, none, none, none, none, none, none, none, none, none, none⟩).1 =
      [Step.stopKind, Step.stopTraefik, Step.stopGatus, Step.stopZot,
        Step.stopStepCA, Step.stopNetwork] ∧
    ("kind: boom" : String) ∈ (stopRun ⟨some "boom", none, none, none, some "bust",
        Except.ok false, none, none, none, none, none, none, none, none, none,
        none, none, none⟩).2 ∧
    stopOutcome ⟨some "boom", none, none, none, some "bust", Except.ok false,
        none, none, none, none, none, none, none, none, none, none, none, none⟩ =
      some "some services failed to stop: [kind: boom, stepca: bust]" := by
  have h := stop_best_effort_spec ⟨some "boom", none, none, none, some "bust",
    Except.ok false, none, none, none, none, none, none, none, none, none,
    none, none, none⟩
  exact ⟨h.1, h.2.2.1 "boom" rfl, by simp [stopOutcome, stopRun, stepErr,
    stopNetworkErrs, joinErrors]⟩

/-- C4 counterexample: when the Kind teardown step fails and everything
else succeeds, restart returns success while the composition of stop
(network teardown skipped) and start returns the combined stop error — so
restart is not equivalent to that composition. -/
theorem restart_not_stop_then_start :
    (restartRun ⟨some "boom", none, none, none, none, Except.ok true, none,
        none, none, none, none, none, none, none, none, none, none, none⟩).2 =
      none ∧
    (stopThenStart ⟨some "boom", none, none, none, none, Except.ok true, none,
        none, none, none, none, none, none, none, none, none, none, none⟩).2 =
      some "some services failed to stop: [kind: boom]" ∧
    (none : Option String) ≠ some "some services failed to stop: [kind: boom]" := by
  refine ⟨rfl, ?_, by simp⟩
  simp [stopThenStart, stopNoNetOutcome, stopNoNetRun, stepErr, joinErrors,
    startRun, zotStartOutcome]

/-- C4 (amended): restart performs the stop steps in order with the
network teardown skipped but with stop failures discarded rather than
aggregated, followed by the start sequence without its CA-certificate and
network steps. Hence, whenever no stop step fails, the CA step succeeds
and the network already exists, restart executes exactly the service-level
steps of (stop without network teardown) followed by start, and returns
the composition's outcome. -/
theorem restart_eq_stop_then_start (env : OrchEnv)
    (hk : env.stopKindE = none) (ht : env.stopTraefikE = none)
    (hg : env.stopGatusE = none) (hz : env.stopZotE = none)
    (hs : env.stopStepCAE = none) (hca : env.caCertE = none)
    (hnet : env.netCheck = Except.ok true) :
    (restartRun env).1 = (stopThenStart env).1.filter Step.serviceLevel ∧
    (restartRun env).2 = (stopThenStart env).2 := by
  rcases env with ⟨f1, f2, f3, f4, f5, f6, f7, f8, f9, s1, s2, s3, s4, s5, s6, s7, s8, s9⟩
  simp only at hk ht hg hz hs hca hnet
  subst hk ht hg hz hs hca hnet
  simp only [restartRun, stopThenStart, stopNoNetRun, stopNoNetOutcome,
    startRun, restartStopPhase, stepErr, zotStartOutcome]
  cases s1 <;> simp [Step.serviceLevel]
  cases s2 <;> simp [Step.serviceLevel]
  cases s3 <;> simp [Step.serviceLevel]
  cases s4 <;> simp [Step.serviceLevel]
  cases s5 <;> simp [Step.serviceLevel]
  cases s6 <;> simp [Step.serviceLevel]
  cases s7 <;> simp [Step.serviceLevel]
  cases s8 <;> simp [Step.serviceLevel]
  cases s9 <;> simp [Step.serviceLevel]

theorem restart_eq_stop_then_start_witness :
    (restartRun ⟨none, none, none, none, none, Except.ok true, none, none,
        none, none, none, none, none, none, none, some "tboom", none, none⟩).1 =
      (stopThenStart ⟨none, none, none, none, none, Except.ok true, none, none,
        none, none, none, none, none, none, none, some "tboom", none, none⟩).1.filter
        Step.serviceLevel ∧
    (restartRun ⟨none, none, none, none, none, Except.ok true, none, none,
        none, none, none, none, none, none, none, some "tboom", none, none⟩).2 =
      (stopThenStart ⟨none, none, none, none, none, Except.ok true, none, none,
        none, none, none, none, none, none, none, some "tboom", none, none⟩).2 :=
  restart_eq_stop_then_start
    ⟨none, none, none, none, none, Except.ok true, none, none, none, none,
      none, none, none, none, none, some "tboom", none, none⟩
    rfl rfl rfl rfl rfl rfl rfl

end Kinder
